import Mathlib

/-!
Verification of the products REST service (FastAPI + MongoDB repository).

Shallow embedding conventions:
* UTC timestamps are abstract instants modelled as `Nat` (totally ordered);
  each `datetime.utcnow()` call in the source is an explicit clock-reading
  argument, in source order.
* UUIDs are abstract values modelled as `Nat`; `str(uuid)` / `UUID(s)` are an
  injective coding captured by the `IdVal` tags below.
* Python floats carry no arithmetic in this code base (prices are only stored
  and copied), so `price` is modelled as an exact `Rat`.
* The Mongo collection is a list of stored documents; `insert_one` appends,
  `find_one` returns the first match, `update_one` with a full-document `$set`
  rewrites the first match in place.
-/

namespace ProductsApp

/-- Python's single-quote character, used in exception messages. -/
def squote : String := String.singleton (Char.ofNat 39)

/-- Embedding of `str(product_id)`: the string form of a UUID (abstract, injective). -/
def uuidStr (u : Nat) : String := toString u

/-- Message of `ProductNotFoundException` (src/app/exceptions/product_exceptions.py). -/
def notFoundMsg (pid : String) : String :=
  "Product with id " ++ squote ++ pid ++ squote ++ " not found"

/-- Message of `ProductAlreadyDeletedException`. -/
def alreadyDeletedMsg (pid : String) : String :=
  "Product with id " ++ squote ++ pid ++ squote ++ " has been deleted"

/-- Message of `DatabaseException`: wraps the underlying cause. -/
def databaseMsg (m : String) : String := "Database error: " ++ m

/-- The routers' catch-all wrapper text for uncategorized exceptions. -/
def unexpectedMsg (m : String) : String := "An unexpected error occurred: " ++ m

/-- The error taxonomy of src/app/exceptions/product_exceptions.py.
`validationFailed` carries its plain message; the other kinds carry the
constructor argument from which their message is built. -/
inductive ProductError where
  | notFound (product_id : String)
  | alreadyDeleted (product_id : String)
  | validationFailed (message : String)
  | databaseError (message : String)
deriving Repr, DecidableEq

/-- Embedding of `str(e)` for each exception kind: the message built in its `__init__`. -/
def ProductError.message : ProductError → String
  | .notFound pid => notFoundMsg pid
  | .alreadyDeleted pid => alreadyDeletedMsg pid
  | .validationFailed m => m
  | .databaseError m => databaseMsg m

/-- The in-memory product record (src/app/models/product.py, `Product`). -/
structure Product where
  id : Nat
  name : String
  description : Option String
  category : String
  price : Rat
  stock : Int
  created_at : Nat
  updated_at : Nat
  deleted_at : Option Nat
deriving Repr, DecidableEq

/-- A document's `id` field: either the string form of a UUID (as written by
`to_dict`) or an already-typed UUID value; `from_dict` checks `isinstance(str)`. -/
inductive IdVal where
  | str (u : Nat)
  | typed (u : Nat)
deriving Repr, DecidableEq

/-- A document's timestamp field: either the ISO-8601 rendering of an instant
(as written by `to_dict`) or an already-typed datetime value. -/
inductive DTVal where
  | iso (t : Nat)
  | typed (t : Nat)
deriving Repr, DecidableEq

/-- Embedding of `UUID(v) if isinstance(v, str) else v`. -/
def IdVal.parse : IdVal → Nat
  | .str u => u
  | .typed u => u

/-- Embedding of `datetime.fromisoformat(v) if isinstance(v, str) else v`. -/
def DTVal.parse : DTVal → Nat
  | .iso t => t
  | .typed t => t

/-- The stored document shape (the dict produced by `Product.to_dict` and
consumed by `Product.from_dict`); `none` is Python's `None`. -/
structure ProductDoc where
  id : IdVal
  name : String
  description : Option String
  category : String
  price : Rat
  stock : Int
  createdAt : DTVal
  updatedAt : DTVal
  deletedAt : Option DTVal
deriving Repr, DecidableEq

/-- Embedding of `Product.__init__`: `id or uuid4()` defaults to a fresh UUID, and
`created_at or utcnow()` / `updated_at or utcnow()` default to two successive
clock readings `now1`, `now2` (two separate `utcnow()` calls, in source order).
UUID and datetime objects are always truthy, so `or` is `Option.getD`. -/
def Product.construct (name : String) (category : String) (price : Rat)
    (stock : Int) (description : Option String) (id : Option Nat)
    (created_at : Option Nat) (updated_at : Option Nat)
    (deleted_at : Option Nat) (freshId : Nat) (now1 : Nat) (now2 : Nat) :
    Product :=
  { id := id.getD freshId
    name := name
    description := description
    category := category
    price := price
    stock := stock
    created_at := created_at.getD now1
    updated_at := updated_at.getD now2
    deleted_at := deleted_at }

/-- Embedding of `Product.to_dict`: id as its string form, timestamps as ISO-8601 strings,
`deletedAt` rendered iff `deleted_at` is set (`... if self.deleted_at else None`). -/
def Product.to_dict (p : Product) : ProductDoc :=
  { id := .str p.id
    name := p.name
    description := p.description
    category := p.category
    price := p.price
    stock := p.stock
    createdAt := .iso p.created_at
    updatedAt := .iso p.updated_at
    deletedAt := p.deleted_at.map .iso }

/-- Embedding of `Product.from_dict`: parses string-typed id/timestamps, passes typed values
through; `deletedAt` is parsed only when present and truthy and a string,
otherwise `data.get("deletedAt")` is passed through unchanged.  The constructor
is invoked with every timestamp argument supplied, so its defaults are unused
(the `0` clock/fresh arguments below are dead). -/
def Product.from_dict (d : ProductDoc) : Product :=
  Product.construct d.name d.category d.price d.stock d.description
    (some d.id.parse) (some d.createdAt.parse) (some d.updatedAt.parse)
    (match d.deletedAt with
      | some (.iso t) => some t
      | some (.typed t) => some t
      | none => none)
    0 0 0

/-- Embedding of `Product.soft_delete`: `deleted_at = utcnow(); updated_at = utcnow()` —
two separate clock readings `now1` then `now2`, in source order. -/
def Product.soft_delete (p : Product) (now1 : Nat) (now2 : Nat) : Product :=
  { p with deleted_at := some now1, updated_at := now2 }

/-- Embedding of `Product.is_deleted`: `deleted_at is not None`. -/
def Product.is_deleted (p : Product) : Bool := p.deleted_at.isSome

/-- Embedding of `Product.update`: each argument overwrites its field only when supplied
(`if x is not None`); `updated_at` is always refreshed to the clock reading. -/
def Product.update (p : Product) (name : Option String)
    (description : Option String) (category : Option String)
    (price : Option Rat) (stock : Option Int) (now : Nat) : Product :=
  { p with
    name := name.getD p.name
    description := description.or p.description
    category := category.getD p.category
    price := price.getD p.price
    stock := stock.getD p.stock
    updated_at := now }

/-! ## Repository layer (src/app/repositories/product_repository.py)

The Mongo collection is modelled as `List ProductDoc`.  Every stored document
carries exactly the nine keys written by `to_dict` (the driver-internal `_id`
field that `find` results carry is popped before deserialization, so it never
appears in the model). -/

/-- The filter `{"id": str(product_id)}`: matches a document whose `id` field
equals the string form of the UUID (an already-typed UUID value does not equal
a string under Mongo equality). -/
def docMatchesId (pid : Nat) (d : ProductDoc) : Bool := d.id == IdVal.str pid

/-- Embedding of `ProductRepository.create`: `insert_one` of the serialized product. -/
def ProductRepository.create (store : List ProductDoc) (p : Product) :
    List ProductDoc :=
  store ++ [p.to_dict]

/-- Embedding of `ProductRepository.find_by_id`: `find_one` on the id filter (first match),
deserialized; `None` when nothing matches. -/
def ProductRepository.find_by_id (store : List ProductDoc) (pid : Nat) :
    Option Product :=
  (store.find? (docMatchesId pid)).map Product.from_dict

/-- Embedding of `ProductRepository.find_all`: query `{}` when `include_deleted` else
`{"deletedAt": None}` (documents whose `deletedAt` is the absence marker),
deserialized in store order. -/
def ProductRepository.find_all (store : List ProductDoc)
    (include_deleted : Bool) : List Product :=
  (if include_deleted then store
   else store.filter (fun d => d.deletedAt.isNone)).map Product.from_dict

/-- Embedding of `update_one(filter, {"$set": document})`: rewrite the first matching
document with the full nine-field serialized state; later documents and
non-matching documents are untouched, and nothing is inserted when no
document matches. -/
def updateOneDoc (p : Product) : List ProductDoc → List ProductDoc
  | [] => []
  | d :: ds =>
    if docMatchesId p.id d then p.to_dict :: ds else d :: updateOneDoc p ds

/-- Embedding of `ProductRepository.update`: serialize the product and `$set` it onto the
first document matching `{"id": str(product.id)}`. -/
def ProductRepository.update (store : List ProductDoc) (p : Product) :
    List ProductDoc :=
  updateOneDoc p store

/-! ## Request schemas (src/app/schemas/product.py) -/

/-- A request-body field of an update payload, distinguishing a key absent
from the JSON body (`unset`, excluded by `model_dump(exclude_unset=True)`)
from a key explicitly set to `null`, from a supplied value. -/
inductive FieldVal (α : Type) where
  | unset
  | null
  | val (a : α)
deriving Repr, DecidableEq

/-- Embedding of `product_data.model_dump(exclude_unset=True)` followed by
`update_data.get(key)`: an unset key is missing from the dump and `.get`
yields `None`; a key set to `null` is present with value `None` and `.get`
also yields `None`; only a supplied value reaches `Product.update`. -/
def FieldVal.toOpt {α : Type} : FieldVal α → Option α
  | .unset => none
  | .null => none
  | .val a => some a

/-- Embedding of `ProductCreate`: the validated create request body. -/
structure ProductCreate where
  name : String
  description : Option String
  category : String
  price : Rat
  stock : Int
deriving Repr, DecidableEq

/-- Embedding of `ProductUpdate`: the validated update request body, every field optional;
`FieldVal` keeps the wire-level unset/null distinction. -/
structure ProductUpdate where
  name : FieldVal String
  description : FieldVal String
  category : FieldVal String
  price : FieldVal Rat
  stock : FieldVal Int
deriving Repr, DecidableEq

/-! ## Service layer (src/app/services/product_service.py)

Mutating operations return the outcome together with the resulting store;
a raised exception leaves the store exactly as it was. -/

/-- Embedding of `ProductService.create_product`: construct a fresh product from the
validated data (id and both timestamps defaulted) and insert it. -/
def ProductService.create_product (store : List ProductDoc)
    (data : ProductCreate) (freshId : Nat) (now1 : Nat) (now2 : Nat) :
    Product × List ProductDoc :=
  let p := Product.construct data.name data.category data.price data.stock
    data.description none none none none freshId now1 now2
  (p, ProductRepository.create store p)

/-- Embedding of `ProductService.get_product_by_id`: not-found and already-deleted checks
around `find_by_id`; read-only. -/
def ProductService.get_product_by_id (store : List ProductDoc) (pid : Nat) :
    Except ProductError Product :=
  match ProductRepository.find_by_id store pid with
  | none => .error (.notFound (uuidStr pid))
  | some p =>
    if p.is_deleted then .error (.alreadyDeleted (uuidStr pid)) else .ok p

/-- Embedding of `ProductService.get_all_products`: `find_all(include_deleted=False)`. -/
def ProductService.get_all_products (store : List ProductDoc) : List Product :=
  ProductRepository.find_all store false

/-- Embedding of `ProductService.update_product`: lifecycle checks, then `Product.update`
with the fields extracted from the exclude-unset dump, then
`repository.update`. -/
def ProductService.update_product (store : List ProductDoc) (pid : Nat)
    (payload : ProductUpdate) (now : Nat) :
    Except ProductError Product × List ProductDoc :=
  match ProductRepository.find_by_id store pid with
  | none => (.error (.notFound (uuidStr pid)), store)
  | some p =>
    if p.is_deleted then (.error (.alreadyDeleted (uuidStr pid)), store)
    else
      let q := p.update payload.name.toOpt payload.description.toOpt
        payload.category.toOpt payload.price.toOpt payload.stock.toOpt now
      (.ok q, ProductRepository.update store q)

/-- Embedding of `ProductService.delete_product`: lifecycle checks, then `soft_delete`
(two clock readings) and `repository.update`. -/
def ProductService.delete_product (store : List ProductDoc) (pid : Nat)
    (now1 : Nat) (now2 : Nat) :
    Except ProductError Product × List ProductDoc :=
  match ProductRepository.find_by_id store pid with
  | none => (.error (.notFound (uuidStr pid)), store)
  | some p =>
    if p.is_deleted then (.error (.alreadyDeleted (uuidStr pid)), store)
    else
      let q := p.soft_delete now1 now2
      (.ok q, ProductRepository.update store q)

/-! ## Router layer (src/app/routers/products.py) -/

/-- An HTTP error response: `HTTPException(status_code, detail)`. -/
structure HTTPError where
  status_code : Nat
  detail : String
deriving Repr, DecidableEq

/-- What reaches a handler's `try` body: a successful service result, a raised
domain exception, or any other (uncategorized) exception with its `str(e)`. -/
inductive RawOutcome (α : Type) where
  | ok (a : α)
  | exc (e : ProductError)
  | other (message : String)
deriving Repr, DecidableEq

/-- The `get_product` handler's except-clauses, in source order: NotFound,
AlreadyDeleted, DatabaseException, then bare `Exception` (which is what a
ProductValidationException would hit here, since this handler has no clause
for it). -/
def handleGetProduct (r : RawOutcome Product) : Except HTTPError ProductDoc :=
  match r with
  | .ok p => .ok p.to_dict
  | .exc (.notFound s) => .error ⟨404, (ProductError.notFound s).message⟩
  | .exc (.alreadyDeleted s) =>
      .error ⟨410, (ProductError.alreadyDeleted s).message⟩
  | .exc (.databaseError m) => .error ⟨500, (ProductError.databaseError m).message⟩
  | .exc (.validationFailed m) =>
      .error ⟨500, unexpectedMsg (ProductError.validationFailed m).message⟩
  | .other m => .error ⟨500, unexpectedMsg m⟩

/-- The `update_product` handler's except-clauses, in source order: NotFound,
AlreadyDeleted, ProductValidationException, DatabaseException, bare Exception. -/
def handleUpdateProduct (r : RawOutcome Product) :
    Except HTTPError ProductDoc :=
  match r with
  | .ok p => .ok p.to_dict
  | .exc (.notFound s) => .error ⟨404, (ProductError.notFound s).message⟩
  | .exc (.alreadyDeleted s) =>
      .error ⟨410, (ProductError.alreadyDeleted s).message⟩
  | .exc (.validationFailed m) =>
      .error ⟨400, (ProductError.validationFailed m).message⟩
  | .exc (.databaseError m) => .error ⟨500, (ProductError.databaseError m).message⟩
  | .other m => .error ⟨500, unexpectedMsg m⟩

/-- The `delete_product` handler's except-clauses: same shape as `get_product`. -/
def handleDeleteProduct (r : RawOutcome Product) :
    Except HTTPError ProductDoc :=
  match r with
  | .ok p => .ok p.to_dict
  | .exc (.notFound s) => .error ⟨404, (ProductError.notFound s).message⟩
  | .exc (.alreadyDeleted s) =>
      .error ⟨410, (ProductError.alreadyDeleted s).message⟩
  | .exc (.databaseError m) => .error ⟨500, (ProductError.databaseError m).message⟩
  | .exc (.validationFailed m) =>
      .error ⟨500, unexpectedMsg (ProductError.validationFailed m).message⟩
  | .other m => .error ⟨500, unexpectedMsg m⟩

/-- The `create_product` handler's except-clauses, in source order:
ProductValidationException, DatabaseException, bare Exception (NotFound and
AlreadyDeleted have no clause here and would hit the catch-all). -/
def handleCreateProduct (r : RawOutcome Product) :
    Except HTTPError ProductDoc :=
  match r with
  | .ok p => .ok p.to_dict
  | .exc (.validationFailed m) =>
      .error ⟨400, (ProductError.validationFailed m).message⟩
  | .exc (.databaseError m) => .error ⟨500, (ProductError.databaseError m).message⟩
  | .exc (.notFound s) => .error ⟨500, unexpectedMsg (ProductError.notFound s).message⟩
  | .exc (.alreadyDeleted s) =>
      .error ⟨500, unexpectedMsg (ProductError.alreadyDeleted s).message⟩
  | .other m => .error ⟨500, unexpectedMsg m⟩

/-- The `get_all_products` handler's except-clauses: DatabaseException, then
bare Exception. -/
def handleListProducts (r : RawOutcome (List Product)) :
    Except HTTPError (List ProductDoc) :=
  match r with
  | .ok ps => .ok (ps.map Product.to_dict)
  | .exc (.databaseError m) => .error ⟨500, (ProductError.databaseError m).message⟩
  | .exc e => .error ⟨500, unexpectedMsg e.message⟩
  | .other m => .error ⟨500, unexpectedMsg m⟩

/-- Embedding of `ProductListResponse`: the serialized products plus `total=len(products)`. -/
structure ProductListResponse where
  products : List ProductDoc
  total : Nat
deriving Repr, DecidableEq

/-- The success path of `GET /products`: `service.get_all_products()`, each
product serialized into a response, `total` set to `len(products)`. -/
def getAllProductsRoute (store : List ProductDoc) : ProductListResponse :=
  let products := ProductService.get_all_products store
  { products := products.map Product.to_dict, total := products.length }

/-! ## Database connection manager (src/app/database.py)

Only the class attributes that `get_collection` consults are state here;
handles are abstract tokens.  `close_db` calls `client.close()` when a client
is held (a side effect on the socket) but never reassigns `cls.client` or
`cls.collection`, so the attribute state is unchanged by it. -/

/-- The `Database` class attributes: `client` and `collection`, both starting
as `None`. -/
structure DBState where
  client : Option Nat
  collection : Option Nat
deriving Repr, DecidableEq

/-- The initial class-attribute state: never connected. -/
def DBState.init : DBState := ⟨none, none⟩

/-- Embedding of `Database.connect_db`: stores a fresh client and collection handle. -/
def DBState.connect_db (_ : DBState) (newClient : Nat) (newCollection : Nat) :
    DBState :=
  ⟨some newClient, some newCollection⟩

/-- Embedding of `Database.close_db`: `if cls.client: cls.client.close()` — closes the
socket but leaves both class attributes exactly as they were. -/
def DBState.close_db (s : DBState) : DBState := s

/-- Embedding of `Database.get_collection`: raises `RuntimeError` when `cls.collection is
None`, else returns the stored handle. -/
def DBState.get_collection (s : DBState) : Except String Nat :=
  match s.collection with
  | none => .error "Database not connected. Call connect_db() first."
  | some c => .ok c

/-! ## Derived notions used by the verification -/

/-- A document is in serialized form (exactly what `to_dict` can emit):
string-form id, ISO-string timestamps, `deletedAt` absent or an ISO string. -/
def ProductDoc.isSerialized (d : ProductDoc) : Bool :=
  (match d.id with | .str _ => true | .typed _ => false) &&
  (match d.createdAt with | .iso _ => true | .typed _ => false) &&
  (match d.updatedAt with | .iso _ => true | .typed _ => false) &&
  (match d.deletedAt with
    | none => true | some (.iso _) => true | some (.typed _) => false)

/-- Classifier: the outcome is a raised `ProductNotFoundException`. -/
def errIsNotFound {α : Type} : Except ProductError α → Bool
  | .error (.notFound _) => true
  | _ => false

/-- Classifier: the outcome is a raised `ProductAlreadyDeletedException`. -/
def errIsAlreadyDeleted {α : Type} : Except ProductError α → Bool
  | .error (.alreadyDeleted _) => true
  | _ => false

/-- Predicate: `find_by_id` yields a record whose `deleted_at` is set. -/
def foundDeleted (store : List ProductDoc) (pid : Nat) : Bool :=
  match ProductRepository.find_by_id store pid with
  | some p => p.is_deleted
  | none => false

/-- A domain-model state transition together with the clock readings its
`utcnow()` calls take, in source order. -/
inductive ProdOp where
  | updOp (name : Option String) (description : Option String)
      (category : Option String) (price : Option Rat) (stock : Option Int)
      (now : Nat)
  | delOp (now1 : Nat) (now2 : Nat)
deriving Repr, DecidableEq

/-- Apply one domain-model operation. -/
def applyOp (p : Product) : ProdOp → Product
  | .updOp n d c pr st t => p.update n d c pr st t
  | .delOp t1 t2 => p.soft_delete t1 t2

/-- Apply a sequence of domain-model operations in order. -/
def applyOps (p : Product) (ops : List ProdOp) : Product :=
  ops.foldl applyOp p

/-- The clock readings an operation consumes, in source order. -/
def opTimes : ProdOp → List Nat
  | .updOp _ _ _ _ _ t => [t]
  | .delOp t1 t2 => [t1, t2]

/-- Sample active product used to instantiate proved theorems. -/
def pSample : Product :=
  ⟨1, "Wireless Mouse", some "Ergonomic", "Electronics", 5, 3, 10, 10, none⟩

/-- Sample soft-deleted product (distinct id). -/
def pDeleted : Product := { pSample with id := 3, deleted_at := some 15 }

/-- Sample product with an id matching no stored document. -/
def pOther : Product := { pSample with id := 2 }

/-- Sample updated state of `pSample` (same id, new price). -/
def pUpd : Product := { pSample with price := 9, updated_at := 20 }

/-- Sample validated create request body. -/
def dataSample : ProductCreate := ⟨"Keyboard", none, "Electronics", 8, 4⟩

/-- Update payload with every field left unset. -/
def payloadUnset : ProductUpdate := ⟨.unset, .unset, .unset, .unset, .unset⟩

/-! ## Claims -/

/-- C2: for every product record (any combination of present/absent
description and deleted timestamp), deserializing the document produced by
`to_dict` restores the record in all nine fields, the round-trip is
idempotent, and `from_dict` accepts already-typed id/timestamp values exactly
as it accepts their string encodings. -/
theorem C2_serialize_roundtrip (p : Product) (u : Nat) (nm : String)
    (ds : Option String) (c : String) (pr : Rat) (st : Int) (ca ua : Nat)
    (da : Option Nat) :
    Product.from_dict p.to_dict = p ∧
    (Product.from_dict p.to_dict).to_dict = p.to_dict ∧
    Product.from_dict
      ⟨IdVal.typed u, nm, ds, c, pr, st, DTVal.typed ca, DTVal.typed ua,
        da.map DTVal.typed⟩ =
    Product.from_dict
      ⟨IdVal.str u, nm, ds, c, pr, st, DTVal.iso ca, DTVal.iso ua,
        da.map DTVal.iso⟩ := by
  have h1 : Product.from_dict p.to_dict = p := by
    cases p with
    | mk pid pnm pds pc ppr pst pca pua pda => cases pda <;> rfl
  refine ⟨h1, by rw [h1], ?_⟩
  cases da <;> rfl

/-- C5 counterexample: `soft_delete` takes two separate `utcnow()` readings;
when the clock advances between them (first reading 0, second reading 1) the
deletion time stored in `deleted_at` differs from the refreshed `updated_at`,
contradicting "both equal to the deletion time". -/
theorem C5_counterexample :
    (pSample.soft_delete 0 1).deleted_at = some 0 ∧
    (pSample.soft_delete 0 1).updated_at = 1 ∧
    (pSample.soft_delete 0 1).deleted_at ≠
      some ((pSample.soft_delete 0 1).updated_at) := by
  refine ⟨rfl, rfl, ?_⟩
  decide

/-- C5 (amended): mark-deleted sets `deleted_at` to the first clock reading
and `updated_at` to a second reading taken immediately after; under a
monotone clock `updated_at` is at least the deletion time, and the two are
equal exactly when the clock does not advance between the readings. -/
theorem C5_soft_delete_timestamps (p : Product) (t1 t2 : Nat) :
    (p.soft_delete t1 t2).deleted_at = some t1 ∧
    (p.soft_delete t1 t2).updated_at = t2 ∧
    (t1 ≤ t2 → t1 ≤ (p.soft_delete t1 t2).updated_at) ∧
    (t1 = t2 → (p.soft_delete t1 t2).deleted_at =
      some ((p.soft_delete t1 t2).updated_at)) := by
  refine ⟨rfl, rfl, fun h => h, fun h => ?_⟩
  simp [Product.soft_delete, h]

/-- C5 witness: at equal clock readings the amended theorem yields equal
deletion and update timestamps on a concrete product. -/
theorem C5_soft_delete_timestamps_witness :
    (pSample.soft_delete 7 7).deleted_at =
      some ((pSample.soft_delete 7 7).updated_at) :=
  (C5_soft_delete_timestamps pSample 7 7).2.2.2 rfl

/-- C9 counterexample: after Connect followed by Close, `get_collection`
still returns the stored collection handle instead of failing — `close_db`
never clears the class attributes. -/
theorem C9_counterexample :
    ((DBState.init.connect_db 1 7).close_db).get_collection = Except.ok 7 :=
  rfl

/-- C9 (amended): `get_collection` returns the stored handle whenever one is
set and fails with the Not-Connected error only when Connect has never been
called; `close_db` leaves the stored client/collection attributes unchanged,
so a Close after Connect does not restore the failing behavior. -/
theorem C9_get_collection_state (s : DBState) (c k : Nat) :
    DBState.init.get_collection =
      Except.error "Database not connected. Call connect_db() first." ∧
    (s.connect_db c k).get_collection = Except.ok k ∧
    s.close_db = s ∧
    (s.close_db).get_collection = s.get_collection :=
  ⟨rfl, rfl, rfl, rfl⟩

/-- C6: each product handler translates the error kinds it enumerates to the
claimed status codes and carries exactly the originating exception's message
as the response detail: NotFound → 404, AlreadyDeleted → 410,
ValidationFailed → 400 (on the handlers that enumerate it), StorageFailure →
500 with the "Database error: "-wrapped cause, and any uncategorized failure
→ 500 with the "An unexpected error occurred: " wrapper. -/
theorem C6_router_error_mapping (s m : String) :
    handleGetProduct (.exc (.notFound s)) =
      .error ⟨404, "Product with id " ++ squote ++ s ++ squote ++ " not found"⟩ ∧
    handleUpdateProduct (.exc (.notFound s)) =
      .error ⟨404, "Product with id " ++ squote ++ s ++ squote ++ " not found"⟩ ∧
    handleDeleteProduct (.exc (.notFound s)) =
      .error ⟨404, "Product with id " ++ squote ++ s ++ squote ++ " not found"⟩ ∧
    handleGetProduct (.exc (.alreadyDeleted s)) =
      .error ⟨410, "Product with id " ++ squote ++ s ++ squote ++ " has been deleted"⟩ ∧
    handleUpdateProduct (.exc (.alreadyDeleted s)) =
      .error ⟨410, "Product with id " ++ squote ++ s ++ squote ++ " has been deleted"⟩ ∧
    handleDeleteProduct (.exc (.alreadyDeleted s)) =
      .error ⟨410, "Product with id " ++ squote ++ s ++ squote ++ " has been deleted"⟩ ∧
    handleUpdateProduct (.exc (.validationFailed m)) = .error ⟨400, m⟩ ∧
    handleCreateProduct (.exc (.validationFailed m)) = .error ⟨400, m⟩ ∧
    handleGetProduct (.exc (.databaseError m)) =
      .error ⟨500, "Database error: " ++ m⟩ ∧
    handleUpdateProduct (.exc (.databaseError m)) =
      .error ⟨500, "Database error: " ++ m⟩ ∧
    handleDeleteProduct (.exc (.databaseError m)) =
      .error ⟨500, "Database error: " ++ m⟩ ∧
    handleCreateProduct (.exc (.databaseError m)) =
      .error ⟨500, "Database error: " ++ m⟩ ∧
    handleListProducts (.exc (.databaseError m)) =
      .error ⟨500, "Database error: " ++ m⟩ ∧
    handleGetProduct (.other m) =
      .error ⟨500, "An unexpected error occurred: " ++ m⟩ ∧
    handleUpdateProduct (.other m) =
      .error ⟨500, "An unexpected error occurred: " ++ m⟩ ∧
    handleDeleteProduct (.other m) =
      .error ⟨500, "An unexpected error occurred: " ++ m⟩ ∧
    handleCreateProduct (.other m) =
      .error ⟨500, "An unexpected error occurred: " ++ m⟩ ∧
    handleListProducts ((.other m : RawOutcome (List Product))) =
      .error ⟨500, "An unexpected error occurred: " ++ m⟩ :=
  ⟨rfl, rfl, rfl, rfl, rfl, rfl, rfl, rfl, rfl, rfl, rfl, rfl, rfl, rfl,
    rfl, rfl, rfl, rfl⟩

/-- C4: on an active product, a Service update whose payload supplies only
`price` yields exactly the prior record with `price` replaced and
`updated_at` refreshed — `name`, `description`, `category`, `stock`, `id`,
`created_at` and `deleted_at` all keep their prior values. -/
theorem C4_partial_update_price_only (store : List ProductDoc) (pid : Nat)
    (p : Product) (pr : Rat) (now : Nat)
    (hfind : ProductRepository.find_by_id store pid = some p)
    (hactive : p.is_deleted = false) :
    (ProductService.update_product store pid
      ⟨.unset, .unset, .unset, .val pr, .unset⟩ now).1 =
      Except.ok { p with price := pr, updated_at := now } := by
  simp [ProductService.update_product, hfind, hactive, Product.update,
    FieldVal.toOpt, Option.or]

/-- C4 witness: updating the sample store's product with only a new price. -/
theorem C4_partial_update_price_only_witness :
    (ProductService.update_product [pSample.to_dict] 1
      ⟨.unset, .unset, .unset, .val 9, .unset⟩ 20).1 =
      Except.ok { pSample with price := 9, updated_at := 20 } :=
  C4_partial_update_price_only [pSample.to_dict] 1 pSample 9 20
    (by decide) (by decide)

/-- C8: the Repository Update matched by the string form of the product id is
a silent no-op when no stored document matches (nothing created, nothing
modified), and when a document matches it overwrites the first matching
document with the product's full serialized state, leaving every other
document untouched. -/
theorem C8_repository_update_frame (store : List ProductDoc) (p : Product) :
    ((∀ d ∈ store, docMatchesId p.id d = false) →
      ProductRepository.update store p = store) ∧
    (∀ pre d post, store = pre ++ d :: post →
      (∀ d2 ∈ pre, docMatchesId p.id d2 = false) →
      docMatchesId p.id d = true →
      ProductRepository.update store p = pre ++ p.to_dict :: post) := by
  constructor
  · intro hnone
    induction store with
    | nil => rfl
    | cons hd tl ih =>
      have hhd : docMatchesId p.id hd = false := hnone hd (by simp)
      have htl : ∀ d ∈ tl, docMatchesId p.id d = false := fun d hd2 =>
        hnone d (by simp [hd2])
      simp only [ProductRepository.update, updateOneDoc, hhd, Bool.false_eq_true,
        if_false]
      simpa [ProductRepository.update] using ih htl
  · intro pre d post hsplit hpre hmatch
    subst hsplit
    induction pre with
    | nil =>
      simp [ProductRepository.update, updateOneDoc, hmatch]
    | cons hd tl ih =>
      have hhd : docMatchesId p.id hd = false := hpre hd (by simp)
      have htl : ∀ d2 ∈ tl, docMatchesId p.id d2 = false := fun d2 hd2 =>
        hpre d2 (by simp [hd2])
      simp only [List.cons_append, ProductRepository.update, updateOneDoc, hhd,
        Bool.false_eq_true, if_false, List.cons.injEq, true_and]
      simpa [ProductRepository.update] using ih htl

/-- C8 witness: on a one-document store, updating with an unmatched id is a
no-op and updating with the matching id rewrites that document. -/
theorem C8_repository_update_frame_witness :
    ProductRepository.update [pSample.to_dict] pOther = [pSample.to_dict] ∧
    ProductRepository.update [pSample.to_dict] pUpd =
      [] ++ pUpd.to_dict :: [] :=
  ⟨(C8_repository_update_frame [pSample.to_dict] pOther).1 (by decide),
   (C8_repository_update_frame [pSample.to_dict] pUpd).2 [] pSample.to_dict []
     rfl (by simp) (by decide)⟩

/-- Serializing the record deserialized from a serialized-form document
reproduces the document exactly. -/
lemma to_dict_from_dict_of_serialized (d : ProductDoc)
    (h : d.isSerialized = true) : (Product.from_dict d).to_dict = d := by
  obtain ⟨di, dn, dds, dc, dpr, dst, dca, dua, dda⟩ := d
  simp only [ProductDoc.isSerialized, Bool.and_eq_true] at h
  obtain ⟨⟨⟨h1, h2⟩, h3⟩, h4⟩ := h
  cases di <;> cases dca <;> cases dua <;> simp at h1 h2 h3
  all_goals
    rcases dda with _ | dv
    · rfl
    · cases dv
      · rfl
      · simp at h4

/-- C3: the GET /products flow returns exactly the stored documents whose
`deletedAt` is absent — for a store of N documents of which K are
soft-deleted it returns N−K, none with `deletedAt` set — and the response's
`total` equals the length of the returned collection. -/
theorem C3_list_returns_active (store : List ProductDoc)
    (hser : ∀ d ∈ store, d.isSerialized = true) :
    (getAllProductsRoute store).total =
      (getAllProductsRoute store).products.length ∧
    (getAllProductsRoute store).products =
      store.filter (fun d => d.deletedAt.isNone) ∧
    (∀ d ∈ (getAllProductsRoute store).products, d.deletedAt = none) ∧
    (getAllProductsRoute store).total =
      store.length - (store.filter (fun d => ! d.deletedAt.isNone)).length := by
  have hprod : (getAllProductsRoute store).products =
      store.filter (fun d => d.deletedAt.isNone) := by
    show ((store.filter (fun d => d.deletedAt.isNone)).map
        Product.from_dict).map Product.to_dict = _
    rw [List.map_map]
    refine (List.map_congr_left ?_).trans (List.map_id _)
    intro d hd
    exact to_dict_from_dict_of_serialized d
      (hser d (List.mem_of_mem_filter hd))
  have htot : (getAllProductsRoute store).total =
      (store.filter (fun d => d.deletedAt.isNone)).length := by
    show (ProductService.get_all_products store).length = _
    simp [ProductService.get_all_products, ProductRepository.find_all]
  refine ⟨?_, hprod, ?_, ?_⟩
  · rw [htot, hprod]
  · intro d hd
    rw [hprod] at hd
    have := List.of_mem_filter hd
    simpa [Option.isNone_iff_eq_none] using this
  · rw [htot]
    have := List.length_eq_length_filter_add
      (l := store) (fun d => d.deletedAt.isNone)
    omega

/-- C3 witness: a two-document store with one active and one soft-deleted
product lists exactly the active one. -/
theorem C3_list_returns_active_witness :
    (getAllProductsRoute [pSample.to_dict, pDeleted.to_dict]).products =
      List.filter (fun d => d.deletedAt.isNone)
        [pSample.to_dict, pDeleted.to_dict] :=
  (C3_list_returns_active [pSample.to_dict, pDeleted.to_dict]
    (by decide)).2.1

/-- No domain-model operation ever touches `created_at`. -/
lemma applyOp_created_at (p : Product) (o : ProdOp) :
    (applyOp p o).created_at = p.created_at := by
  cases o <;> rfl

/-- Field `created_at` is preserved across any operation sequence. -/
lemma applyOps_created_at (ops : List ProdOp) (p : Product) :
    (applyOps p ops).created_at = p.created_at := by
  induction ops generalizing p with
  | nil => rfl
  | cons o ops ih =>
    calc (applyOps p (o :: ops)).created_at
        = (applyOps (applyOp p o) ops).created_at := rfl
      _ = (applyOp p o).created_at := ih _
      _ = p.created_at := applyOp_created_at p o

/-- Under a monotone clock covering every `utcnow()` reading, the refreshed
`updated_at` never moves backwards across an operation sequence. -/
lemma applyOps_updated_ge (ops : List ProdOp) (p : Product)
    (h : List.Chain' (· ≤ ·) (p.updated_at :: ops.flatMap opTimes)) :
    p.updated_at ≤ (applyOps p ops).updated_at := by
  induction ops generalizing p with
  | nil => exact le_refl _
  | cons o ops ih =>
    cases o with
    | updOp n d c pr st t =>
      have h0 : List.Chain' (· ≤ ·)
          (p.updated_at :: t :: ops.flatMap opTimes) := by
        simpa [opTimes] using h
      obtain ⟨h1, h2⟩ := List.chain'_cons.mp h0
      exact le_trans h1 (ih (applyOp p (ProdOp.updOp n d c pr st t)) h2)
    | delOp t1 t2 =>
      have h0 : List.Chain' (· ≤ ·)
          (p.updated_at :: t1 :: t2 :: ops.flatMap opTimes) := by
        simpa [opTimes] using h
      obtain ⟨h1, h2⟩ := List.chain'_cons.mp h0
      obtain ⟨h12, h3⟩ := List.chain'_cons.mp h2
      exact le_trans h1 (le_trans h12
        (ih (applyOp p (ProdOp.delOp t1 t2)) h3))

/-- C7 counterexample: Construct accepts explicitly supplied timestamps and
performs no validation, so a record built with `created_at = 10` and
`updated_at = 5` violates `updated_at >= created_at` immediately (empty
operation sequence), refuting the claim over every record produced by
Construct. -/
theorem C7_counterexample :
    ¬ ((applyOps (Product.construct "A" "B" 5 1 none none (some 10) (some 5)
          none 0 0 0) []).created_at ≤
        (applyOps (Product.construct "A" "B" 5 1 none none (some 10) (some 5)
          none 0 0 0) []).updated_at) := by
  decide

/-- C7 (amended): for every record produced by Construct whose initial
timestamps satisfy `updated_at >= created_at` — which defaulted construction
guarantees under a monotone clock, since both fields are then successive
clock readings — and every sequence of partial updates and soft-deletes
whose clock readings are monotone from the record's `updated_at` onward, the
invariant `updated_at >= created_at` holds, because `updated_at` is
refreshed to the current reading on every field mutation and on soft-delete
while `created_at` is never changed after construction; a record constructed
with explicit `updated_at < created_at` violates it at construction. -/
theorem C7_updated_at_invariant (nm cat : String) (pr : Rat) (st : Int)
    (ds : Option String) (idv : Option Nat) (ca ua : Option Nat)
    (dla : Option Nat) (freshId n1 n2 : Nat) (ops : List ProdOp)
    (hinit : (Product.construct nm cat pr st ds idv ca ua dla freshId
        n1 n2).created_at ≤
      (Product.construct nm cat pr st ds idv ca ua dla freshId
        n1 n2).updated_at)
    (hclock : List.Chain' (· ≤ ·)
      ((Product.construct nm cat pr st ds idv ca ua dla freshId
        n1 n2).updated_at :: ops.flatMap opTimes)) :
    (applyOps (Product.construct nm cat pr st ds idv ca ua dla freshId
        n1 n2) ops).created_at =
      (Product.construct nm cat pr st ds idv ca ua dla freshId
        n1 n2).created_at ∧
    (applyOps (Product.construct nm cat pr st ds idv ca ua dla freshId
        n1 n2) ops).created_at ≤
      (applyOps (Product.construct nm cat pr st ds idv ca ua dla freshId
        n1 n2) ops).updated_at := by
  have hge := applyOps_updated_ge ops _ hclock
  have hcr := applyOps_created_at ops
    (Product.construct nm cat pr st ds idv ca ua dla freshId n1 n2)
  exact ⟨hcr, by rw [hcr]; exact le_trans hinit hge⟩

/-- C7 witness: a record constructed with defaulted timestamps under an
advancing clock (readings 1, 2, then 3, 4 for the soft-delete) satisfies
both hypotheses and keeps `created_at <= updated_at`. -/
theorem C7_updated_at_invariant_witness :
    (applyOps (Product.construct "A" "B" 5 1 none none none none none 9 1 2)
      [ProdOp.delOp 3 4]).created_at ≤
    (applyOps (Product.construct "A" "B" 5 1 none none none none none 9 1 2)
      [ProdOp.delOp 3 4]).updated_at :=
  (C7_updated_at_invariant "A" "B" 5 1 none none none none none 9 1 2
    [ProdOp.delOp 3 4] (by decide)
    (by simp [opTimes, List.chain'_cons, Product.construct])).2

/-- Update payload supplying `null` for `description` and nothing else. -/
def payloadNullDesc : ProductUpdate := ⟨.unset, .null, .unset, .unset, .unset⟩

/-- C10: the Service treats an update field explicitly supplied as `null`
identically to an omitted field — the exclude-unset dump plus `.get` collapse
both to `None`, which `Product.update` leaves unchanged — so in particular no
update can clear a previously set description back to absent. -/
theorem C10_null_equals_unset (store : List ProductDoc) (pid : Nat)
    (payload : ProductUpdate) (now : Nat) (p : Product) (s : String) :
    ProductService.update_product store pid
        { payload with name := .null } now =
      ProductService.update_product store pid
        { payload with name := .unset } now ∧
    ProductService.update_product store pid
        { payload with description := .null } now =
      ProductService.update_product store pid
        { payload with description := .unset } now ∧
    ProductService.update_product store pid
        { payload with category := .null } now =
      ProductService.update_product store pid
        { payload with category := .unset } now ∧
    ProductService.update_product store pid
        { payload with price := .null } now =
      ProductService.update_product store pid
        { payload with price := .unset } now ∧
    ProductService.update_product store pid
        { payload with stock := .null } now =
      ProductService.update_product store pid
        { payload with stock := .unset } now ∧
    (ProductRepository.find_by_id store pid = some p →
      p.is_deleted = false → p.description = some s →
      (ProductService.update_product store pid payload now).1 =
        Except.ok (p.update payload.name.toOpt payload.description.toOpt
          payload.category.toOpt payload.price.toOpt payload.stock.toOpt
          now) ∧
      (p.update payload.name.toOpt payload.description.toOpt
        payload.category.toOpt payload.price.toOpt payload.stock.toOpt
        now).description.isSome = true) := by
  refine ⟨rfl, rfl, rfl, rfl, rfl, fun hfind hactive hdesc => ⟨?_, ?_⟩⟩
  · simp [ProductService.update_product, hfind, hactive]
  · cases hpd : payload.description.toOpt <;>
      simp [Product.update, hdesc, hpd, Option.or]

/-- C10 witness: an update whose body sets `description` to `null` leaves the
sample product's description present. -/
theorem C10_null_equals_unset_witness :
    (pSample.update payloadNullDesc.name.toOpt
      payloadNullDesc.description.toOpt payloadNullDesc.category.toOpt
      payloadNullDesc.price.toOpt payloadNullDesc.stock.toOpt
      20).description.isSome = true :=
  ((C10_null_equals_unset [pSample.to_dict] 1 payloadNullDesc 20 pSample
    "Ergonomic").2.2.2.2.2 (by decide) (by decide) (by decide)).2

/-- Deserialization reflects the deleted flag of the document exactly. -/
lemma from_dict_is_deleted (d : ProductDoc) :
    (Product.from_dict d).is_deleted = d.deletedAt.isSome := by
  rcases d with ⟨di, dn, dds, dc, dpr, dst, dca, dua, dda⟩
  rcases dda with _ | dv
  · rfl
  · cases dv <;> rfl

/-- Unpack a successful `find_by_id`: the first matching stored document,
its deserialization, and the matched string-form id. -/
lemma find_by_id_some (store : List ProductDoc) (pid : Nat) (p : Product)
    (h : ProductRepository.find_by_id store pid = some p) :
    ∃ d, List.find? (docMatchesId pid) store = some d ∧
      Product.from_dict d = p ∧ d.id = IdVal.str pid := by
  unfold ProductRepository.find_by_id at h
  obtain ⟨d, hd, hfd⟩ := Option.map_eq_some'.mp h
  refine ⟨d, hd, hfd, ?_⟩
  have := List.find?_some hd
  simpa [docMatchesId] using this

/-- A product loaded by id carries that id. -/
lemma find_by_id_id (store : List ProductDoc) (pid : Nat) (p : Product)
    (h : ProductRepository.find_by_id store pid = some p) : p.id = pid := by
  obtain ⟨d, _, hfd, hid⟩ := find_by_id_some store pid p h
  have : (Product.from_dict d).id = d.id.parse := rfl
  rw [← hfd, this, hid]
  rfl

/-- Rewriting the record found active under id `pid` never touches any stored
document whose `deletedAt` is set. -/
lemma updateOne_preserves_deleted (pid : Nat) (q : Product)
    (hq : q.id = pid) :
    ∀ (store : List ProductDoc) (p : Product),
      ProductRepository.find_by_id store pid = some p →
      p.is_deleted = false →
      ∀ (i : Nat) (d : ProductDoc), store[i]? = some d →
        d.deletedAt.isSome = true →
        (updateOneDoc q store)[i]? = some d := by
  intro store
  induction store with
  | nil =>
    intro p hfind
    simp [ProductRepository.find_by_id] at hfind
  | cons hd tl ih =>
    intro p hfind hact i d hget hdel
    by_cases hmatch : docMatchesId pid hd = true
    · have hfd : Product.from_dict hd = p := by
        simpa [ProductRepository.find_by_id,
          List.find?_cons_of_pos _ hmatch] using hfind
      have hdnone : hd.deletedAt.isSome = false := by
        have hh := from_dict_is_deleted hd
        rw [hfd, hact] at hh
        exact hh.symm
      have hm2 : docMatchesId q.id hd = true := by rw [hq]; exact hmatch
      cases i with
      | zero =>
        rw [List.getElem?_cons_zero] at hget
        obtain rfl : hd = d := by simpa using hget
        rw [hdel] at hdnone
        cases hdnone
      | succ j =>
        rw [List.getElem?_cons_succ] at hget
        simp only [updateOneDoc, hm2, if_true, List.getElem?_cons_succ]
        exact hget
    · have hm2 : docMatchesId q.id hd = false := by
        rw [hq]; simpa using hmatch
      have hfind2 : ProductRepository.find_by_id tl pid = some p := by
        simpa [ProductRepository.find_by_id,
          List.find?_cons_of_neg _ (by simpa using hmatch)] using hfind
      cases i with
      | zero =>
        rw [List.getElem?_cons_zero] at hget
        simpa [updateOneDoc, hm2] using hget
      | succ j =>
        rw [List.getElem?_cons_succ] at hget
        have := ih p hfind2 hact j d hget hdel
        simpa [updateOneDoc, hm2] using this

/-- C1: for every id, the Service Get/Update/Delete raise NotFound exactly
when `find_by_id` is empty and AlreadyDeleted exactly when the found record's
`deleted_at` is set; on either error the store is returned unchanged; and no
Service operation (Create/Update/Delete) ever rewrites a stored document
whose `deletedAt` is set — a deleted record is never returned to active. -/
theorem C1_service_lifecycle (store : List ProductDoc) (pid : Nat)
    (payload : ProductUpdate) (now nd1 nd2 : Nat) (data : ProductCreate)
    (freshId nc1 nc2 : Nat) :
    (errIsNotFound (ProductService.get_product_by_id store pid) =
      (ProductRepository.find_by_id store pid).isNone) ∧
    (errIsAlreadyDeleted (ProductService.get_product_by_id store pid) =
      foundDeleted store pid) ∧
    (errIsNotFound (ProductService.update_product store pid payload now).1 =
      (ProductRepository.find_by_id store pid).isNone) ∧
    (errIsAlreadyDeleted
        (ProductService.update_product store pid payload now).1 =
      foundDeleted store pid) ∧
    (errIsNotFound (ProductService.delete_product store pid nd1 nd2).1 =
      (ProductRepository.find_by_id store pid).isNone) ∧
    (errIsAlreadyDeleted (ProductService.delete_product store pid nd1 nd2).1 =
      foundDeleted store pid) ∧
    (∀ e, (ProductService.update_product store pid payload now).1 =
        .error e →
      (ProductService.update_product store pid payload now).2 = store) ∧
    (∀ e, (ProductService.delete_product store pid nd1 nd2).1 = .error e →
      (ProductService.delete_product store pid nd1 nd2).2 = store) ∧
    (∀ (i : Nat) (d : ProductDoc), store[i]? = some d →
        d.deletedAt.isSome = true →
      (ProductService.create_product store data freshId nc1 nc2).2[i]? =
        some d) ∧
    (∀ (i : Nat) (d : ProductDoc), store[i]? = some d →
        d.deletedAt.isSome = true →
      (ProductService.update_product store pid payload now).2[i]? =
        some d) ∧
    (∀ (i : Nat) (d : ProductDoc), store[i]? = some d →
        d.deletedAt.isSome = true →
      (ProductService.delete_product store pid nd1 nd2).2[i]? = some d) := by
  have hcreate : ∀ (i : Nat) (d : ProductDoc), store[i]? = some d →
      d.deletedAt.isSome = true →
      (ProductService.create_product store data freshId nc1 nc2).2[i]? =
        some d := by
    intro i d hget _
    have hlt : i < store.length := (List.getElem?_eq_some_iff.mp hget).1
    show (store ++ [_])[i]? = some d
    rw [List.getElem?_append_left hlt]
    exact hget
  rcases hfind : ProductRepository.find_by_id store pid with _ | p
  · refine ⟨?_, ?_, ?_, ?_, ?_, ?_, ?_, ?_, hcreate, ?_, ?_⟩ <;>
      simp [ProductService.get_product_by_id,
        ProductService.update_product, ProductService.delete_product,
        errIsNotFound, errIsAlreadyDeleted, foundDeleted, hfind]
    all_goals
      intro i d hget _
      exact hget
  · rcases hdel : p.is_deleted with _ | _
    · have hok : ∀ (i : Nat) (d : ProductDoc), store[i]? = some d →
        d.deletedAt.isSome = true →
          ∀ q : Product, q.id = pid →
            (ProductRepository.update store q)[i]? = some d := by
        intro i d hget hdeleted q hqid
        exact updateOne_preserves_deleted pid q hqid store p hfind hdel
          i d hget hdeleted
      refine ⟨?_, ?_, ?_, ?_, ?_, ?_, ?_, ?_, hcreate, ?_, ?_⟩
      · simp [ProductService.get_product_by_id, errIsNotFound, hfind, hdel]
      · simp [ProductService.get_product_by_id, errIsAlreadyDeleted,
          foundDeleted, hfind, hdel]
      · simp [ProductService.update_product, errIsNotFound, hfind, hdel]
      · simp [ProductService.update_product, errIsAlreadyDeleted,
          foundDeleted, hfind, hdel]
      · simp [ProductService.delete_product, errIsNotFound, hfind, hdel]
      · simp [ProductService.delete_product, errIsAlreadyDeleted,
          foundDeleted, hfind, hdel]
      · intro e he
        simp [ProductService.update_product, hfind, hdel] at he
      · intro e he
        simp [ProductService.delete_product, hfind, hdel] at he
      · intro i d hget hdeleted
        have h2 : (ProductService.update_product store pid payload now).2 =
            ProductRepository.update store
              (p.update payload.name.toOpt payload.description.toOpt
                payload.category.toOpt payload.price.toOpt
                payload.stock.toOpt now) := by
          simp [ProductService.update_product, hfind, hdel]
        rw [h2]
        exact hok i d hget hdeleted _ (find_by_id_id store pid p hfind)
      · intro i d hget hdeleted
        have h2 : (ProductService.delete_product store pid nd1 nd2).2 =
            ProductRepository.update store (p.soft_delete nd1 nd2) := by
          simp [ProductService.delete_product, hfind, hdel]
        rw [h2]
        exact hok i d hget hdeleted _ (find_by_id_id store pid p hfind)
    · refine ⟨?_, ?_, ?_, ?_, ?_, ?_, ?_, ?_, hcreate, ?_, ?_⟩ <;>
        simp [ProductService.get_product_by_id,
          ProductService.update_product, ProductService.delete_product,
          errIsNotFound, errIsAlreadyDeleted, foundDeleted, hfind, hdel]
      all_goals
        intro i d hget _
        exact hget

/-- C1 witness: deleting an already-deleted product errors and leaves the
one-document store unchanged. -/
theorem C1_service_lifecycle_witness :
    (ProductService.delete_product [pDeleted.to_dict] 3 20 21).2 =
      [pDeleted.to_dict] :=
  (C1_service_lifecycle [pDeleted.to_dict] 3 payloadUnset 20 20 21
    dataSample 9 1 2).2.2.2.2.2.2.2.1
    (ProductError.alreadyDeleted (uuidStr 3)) (by rfl)

end ProductsApp
